import Mathlib

/-!
Verification of the `rust-libnotify` wrapper (`src/lib.rs`).

The wrapper is a thin safety layer over the native libnotify library.  We
embed it shallowly:

* Rust `&str` values become byte lists (`Str`); `CString::new` becomes a
  function failing exactly on an embedded null byte.
* Every native call made by the wrapper is recorded in an explicit trace
  (`List NativeCall`), so that claims of the form "no native call is made"
  are statable.
* The *results* the native layer reports back (success flags, null returns,
  populated error out-parameters) are external nondeterminism and are
  supplied by a `NativeOracle` (a mock native layer).
* The one piece of genuinely stateful native behaviour the wrapper relies
  on — the process-wide "initialized" flag — is a `NativeState`, whose
  transitions are modelled from the spec's external-interface section
  (the native library itself is an external collaborator, not part of the
  repository's sources).
-/

set_option autoImplicit false

/-- A Rust `&str` / byte buffer, modelled as its list of bytes. -/
abbrev Str := List Nat

/-- `gtypes::TRUE` (gboolean). -/
def TRUE : Bool := true

/-- `gtypes::FALSE` (gboolean). -/
def FALSE : Bool := false

/-- `std::ffi::NulError`: an embedded null byte was found while converting a
string to a C string.  (Rust's value also records the byte position of the
first null byte; no claim mentions it, so we keep only the offending bytes,
which identify the failing field.) -/
structure NulError where
  bytes : Str
  deriving DecidableEq, Repr

/-- `CString::new`: fails exactly when the byte string contains an embedded
null byte; otherwise yields the (conceptually null-terminated) buffer. -/
def CString.new (s : Str) : Except NulError Str :=
  if s.contains 0 then .error ⟨s⟩ else .ok s

/-- The `match body { Some(body) => Some(try!(CString::new(body))), None => None }`
pattern used for the optional `body`/`icon` arguments in
`Context::new_notification` and `Notification::update`.  A `none` result
models the null pointer passed for an absent optional field. -/
def cstringOpt (s : Option Str) : Except NulError (Option Str) :=
  match s with
  | some b =>
    match CString.new b with
    | .error e => .error e
    | .ok c => .ok (some c)
  | none => .ok none

/-- `ContextCreationError` (src/lib.rs). -/
inductive ContextCreationError where
  /-- Context already exists. -/
  | AlreadyExists
  /-- Failed to initialize libnotify. -/
  | InitError
  /-- A nul byte was found in the provided string. -/
  | NulError (e : NulError)
  deriving DecidableEq, Repr

/-- `NotificationCreationError` (src/lib.rs). -/
inductive NotificationCreationError where
  /-- A nul byte was found in the provided string. -/
  | NulError (e : NulError)
  /-- An unknown error happened. -/
  | Unknown
  /-- Invalid parameter passed to a glib function. -/
  | InvalidParameter
  deriving DecidableEq, Repr

/-- `NotificationShowError` (src/lib.rs): carries the message copied out of
the native `GError` before that object is freed. -/
structure NotificationShowError where
  message : String
  deriving DecidableEq, Repr

/-- One native call made by the wrapper.  `objectUnref` stands for
`g_object_unref` on a notification handle (releasing the native object);
the source never performs such a call, so no wrapper function below ever
emits it, but having the constructor makes "the handle is freed" statable. -/
inductive NativeCall where
  | isInitted
  | init (app : Str)
  | uninit
  | notificationNew (summary : Str) (body icon : Option Str)
  | notificationShow (handle : Nat)
  | setTimeout (handle : Nat) (timeout : Int)
  | notificationUpdate (handle : Nat) (summary : Str) (body icon : Option Str)
  | errorFree
  | objectUnref (handle : Nat)
  deriving DecidableEq, Repr

/-- The results the native layer reports back to the wrapper: a mock native
layer.  Handles are `Nat`; a native pointer return is `Option Nat`, with
`none` for a null return.  `showResult` yields the gboolean return flag of
`notify_notification_show` *and* the error out-parameter (`none` when the
native call leaves it null, `some msg` when it populates a `GError` whose
message is `msg`). -/
structure NativeOracle where
  initOk : Str → Bool
  newHandle : Str → Option Str → Option Str → Option Nat
  showResult : Nat → Bool × Option String
  updateOk : Nat → Str → Option Str → Option Str → Bool

/-- Modelled from the spec: the native library's process-wide state — its
tracked "initialized" flag (spec §6, §9: "the native 'is initialized'
flag"). -/
structure NativeState where
  initted : Bool
  deriving DecidableEq, Repr

/-- Modelled from the spec: `is_initialized() -> bool` queries the native
tracked flag (spec §6). -/
def notify_is_initted (st : NativeState) : Bool :=
  st.initted

/-- Modelled from the spec: `initialize(app_name) -> bool`; the success flag
comes from the oracle, and on success the native tracked flag becomes true
(spec §4.1: "the 'already exists' flag must reflect the native library's own
tracked state"). -/
def notify_init (o : NativeOracle) (st : NativeState) (app : Str) :
    Bool × NativeState :=
  if o.initOk app then (true, { initted := true }) else (false, st)

/-- Modelled from the spec: `uninitialize()` resets the native tracked flag
(spec §8: "singleton flag correctly reset"). -/
def notify_uninit (_st : NativeState) : NativeState :=
  { initted := false }

/-- `Context` (src/lib.rs): a zero-size marker. -/
structure Context where
  deriving DecidableEq, Repr

/-- `Notification` (src/lib.rs): wraps an opaque native handle; the Rust
lifetime tie to the `Context` is a `PhantomData` with no runtime content. -/
structure Notification where
  handle : Nat
  deriving DecidableEq, Repr

/-- `Context::new` (src/lib.rs lines 107–118): checks `notify_is_initted`,
converts the app name, then calls `notify_init`.  Returns the result, the
native state afterwards, and the trace of native calls made. -/
def Context.new (o : NativeOracle) (st : NativeState) (app_name : Str) :
    Except ContextCreationError Context × NativeState × List NativeCall :=
  if notify_is_initted st = TRUE then
    (.error .AlreadyExists, st, [.isInitted])
  else
    match CString.new app_name with
    | .error e => (.error (.NulError e), st, [.isInitted])
    | .ok app_name_c =>
      let r := notify_init o st app_name_c
      if r.1 = FALSE then
        (.error .InitError, r.2, [.isInitted, .init app_name_c])
      else
        (.ok ⟨⟩, r.2, [.isInitted, .init app_name_c])

/-- `impl Drop for Context` (src/lib.rs lines 176–182): unconditionally
calls `notify_uninit`. -/
def Context.drop (st : NativeState) : NativeState × List NativeCall :=
  (notify_uninit st, [.uninit])

/-- `Context::new_notification` (src/lib.rs lines 126–160): converts
summary, then body, then icon (each `try!` short-circuits), passes `none`
(a null pointer) for absent optional fields, then calls
`notify_notification_new`; a null return is `Unknown`, otherwise the handle
is wrapped. -/
def Context.new_notification (o : NativeOracle) (summary : Str)
    (body icon : Option Str) :
    Except NotificationCreationError Notification × List NativeCall :=
  match CString.new summary with
  | .error e => (.error (.NulError e), [])
  | .ok summary_c =>
    match cstringOpt body with
    | .error e => (.error (.NulError e), [])
    | .ok body_ptr =>
      match cstringOpt icon with
      | .error e => (.error (.NulError e), [])
      | .ok icon_ptr =>
        match o.newHandle summary_c body_ptr icon_ptr with
        | none => (.error .Unknown, [.notificationNew summary_c body_ptr icon_ptr])
        | some n => (.ok ⟨n⟩, [.notificationNew summary_c body_ptr icon_ptr])

/-- `Notification::show` (src/lib.rs lines 193–206): calls
`notify_notification_show` with an error out-parameter, *discarding the
gboolean return value*.  If the out-parameter was populated, the message is
copied into an owned string, the native error object is freed
(`g_error_free`), and the error is returned; otherwise `Ok(())`. -/
def Notification.show (o : NativeOracle) (n : Notification) :
    Except NotificationShowError Unit × List NativeCall :=
  let err := (o.showResult n.handle).2
  match err with
  | some msg => (.error ⟨msg⟩, [.notificationShow n.handle, .errorFree])
  | none => (.ok (), [.notificationShow n.handle])

/-- `Notification::set_notification_timeout` (src/lib.rs): forwards the
timeout to `notify_notification_set_timeout`; no result. -/
def Notification.set_notification_timeout (n : Notification) (timeout : Int) :
    List NativeCall :=
  [.setTimeout n.handle timeout]

/-- `Notification::update` (src/lib.rs lines 223–256): same string
conversions as `new_notification` (summary, then body, then icon), then
`notify_notification_update`; a `FALSE` return is `InvalidParameter`,
otherwise `Ok(())`. -/
def Notification.update (o : NativeOracle) (n : Notification) (summary : Str)
    (body icon : Option Str) :
    Except NotificationCreationError Unit × List NativeCall :=
  match CString.new summary with
  | .error e => (.error (.NulError e), [])
  | .ok summary_c =>
    match cstringOpt body with
    | .error e => (.error (.NulError e), [])
    | .ok body_ptr =>
      match cstringOpt icon with
      | .error e => (.error (.NulError e), [])
      | .ok icon_ptr =>
        let b := o.updateOk n.handle summary_c body_ptr icon_ptr
        if b = FALSE then
          (.error .InvalidParameter, [.notificationUpdate n.handle summary_c body_ptr icon_ptr])
        else
          (.ok (), [.notificationUpdate n.handle summary_c body_ptr icon_ptr])

/-- Dropping a `Notification`: the source defines no `Drop` implementation
for `Notification`, and dropping a struct of a raw pointer plus a
`PhantomData` performs no call at all — in particular no `g_object_unref`.
The trace of native calls made when a `Notification` goes out of scope is
therefore empty. -/
def Notification.drop (_n : Notification) : List NativeCall :=
  []

/-- The error type behind `Context::show`'s `Box<Error>`: either the
notification-creation step's error or the show step's error. -/
inductive ShowError where
  | creation (e : NotificationCreationError)
  | showing (e : NotificationShowError)
  deriving DecidableEq, Repr

/-- `Context::show` (src/lib.rs lines 165–173): `try!` the notification
creation, `try!` its `show`, then `Ok(())`; each `try!` boxes the step's
error (modelled by the `ShowError` sum). -/
def Context.show (o : NativeOracle) (summary : Str) (body icon : Option Str) :
    Except ShowError Unit × List NativeCall :=
  match Context.new_notification o summary body icon with
  | (.error e, tr) => (.error (.creation e), tr)
  | (.ok notif, tr) =>
    match Notification.show o notif with
    | (.error e, tr2) => (.error (.showing e), tr ++ tr2)
    | (.ok _, tr2) => (.ok (), tr ++ tr2)

/-- Written from the spec's words for the convenience method: "composition
of `new_notification` followed by the Notification's `show`; propagates
whichever step's error first occurs; the created Notification is discarded
after the call".  Stated as an `Except`-monad bind over the results, with
the traces of the performed steps concatenated. -/
def Context.showSpec (o : NativeOracle) (summary : Str)
    (body icon : Option Str) :
    Except ShowError Unit × List NativeCall :=
  let step1 := Context.new_notification o summary body icon
  let result :=
    (step1.1.mapError ShowError.creation).bind fun notif =>
      ((Notification.show o notif).1.mapError ShowError.showing).map fun _ => ()
  let trace :=
    step1.2 ++
      (match step1.1 with
       | .ok notif => (Notification.show o notif).2
       | .error _ => [])
  (result, trace)

/-- Is a native call the display call (`notify_notification_show`)? -/
def isShowCall : NativeCall → Bool
  | .notificationShow _ => true
  | _ => false

/-- Is a native call the in-memory field update (`notify_notification_update`)? -/
def isUpdateCall : NativeCall → Bool
  | .notificationUpdate _ _ _ _ => true
  | _ => false

/-- The rendering state reached by a trace, as the mock native layer of the
spec tracks it: the number of "render" (display) calls made. -/
def renderCount (tr : List NativeCall) : Nat :=
  (tr.filter isShowCall).length

/-- A cooperative mock native layer: initialization succeeds, construction
returns handle 1, showing succeeds with no error populated, update succeeds. -/
def mockOracle : NativeOracle where
  initOk := fun _ => true
  newHandle := fun _ _ _ => some 1
  showResult := fun _ => (true, none)
  updateOk := fun _ _ _ _ => true

/-- A failing mock native layer: initialization fails, construction returns
null, the show call returns `FALSE` and populates an error, update fails. -/
def failOracle : NativeOracle where
  initOk := fun _ => false
  newHandle := fun _ _ _ => none
  showResult := fun _ => (false, some "boom")
  updateOk := fun _ _ _ _ => false

/-- A mock native layer whose display call reports failure through its
gboolean return value while leaving the error out-parameter null. -/
def flagOnlyFailOracle : NativeOracle where
  initOk := fun _ => true
  newHandle := fun _ _ _ => some 1
  showResult := fun _ => (false, none)
  updateOk := fun _ _ _ _ => true

/-! ## Helper lemmas -/

/-- Converting an optional string succeeds with the string itself when no
contained byte string has an embedded null byte. -/
theorem cstringOpt_ok (b : Option Str)
    (hb : b.all (fun x => !x.contains 0) = true) : cstringOpt b = .ok b := by
  cases b with
  | none => rfl
  | some bs =>
    simp [Option.all] at hb
    simp [cstringOpt, CString.new, hb]

/-! ## Claims -/

/-- Claim C1: at most one `Context` exists at any time.  `Context::new`
fails with `AlreadyExists` whenever the native initialized flag is already
true; dropping a `Context` always invokes the native uninitialize call,
resetting that flag; and two sequential create/destroy cycles starting from
the uninitialized state each succeed independently. -/
theorem context_singleton_cycles (o : NativeOracle) (app : Str)
    (hnul : app.contains 0 = false) (hinit : o.initOk app = true) :
    (∀ st : NativeState, st.initted = true →
      (Context.new o st app).1 = .error .AlreadyExists)
    ∧ (∀ st : NativeState, Context.drop st = (⟨false⟩, [.uninit]))
    ∧ ((Context.new o ⟨false⟩ app).1 = .ok ⟨⟩
       ∧ (Context.new o (Context.drop (Context.new o ⟨false⟩ app).2.1).1 app).1
           = .ok ⟨⟩) := by
  have hnul2 : ¬(0 ∈ app) := by simpa using hnul
  refine ⟨fun st h => ?_, fun st => rfl, ?_, ?_⟩ <;>
    simp [Context.new, Context.drop, notify_is_initted, notify_init,
      notify_uninit, CString.new, TRUE, FALSE, hnul2, hinit, *]

/-- Witness for C1 at the cooperative mock native layer:
with the flag set, creation reports `AlreadyExists`; dropping resets the
flag; a create–drop–create sequence from the clean state succeeds twice. -/
theorem context_singleton_cycles_witness :
    ((Context.new mockOracle ⟨true⟩ [109]).1 = .error .AlreadyExists)
    ∧ Context.drop ⟨true⟩ = (⟨false⟩, [.uninit])
    ∧ (Context.new mockOracle ⟨false⟩ [109]).1 = .ok ⟨⟩
    ∧ (Context.new mockOracle
        (Context.drop (Context.new mockOracle ⟨false⟩ [109]).2.1).1 [109]).1
        = .ok ⟨⟩ := by
  have h := context_singleton_cycles mockOracle [109] (by decide) rfl
  exact ⟨h.1 ⟨true⟩ rfl, h.2.1 ⟨true⟩, h.2.2.1, h.2.2.2⟩

/-- Claim C2: the four outcomes of `Context::new`: `AlreadyExists` when the
native is-initialized state is true (the trace then holds only the
is-initted query, no native initialization); otherwise `NulError` on an
embedded null byte in the app name; otherwise `InitError` when native
initialization reports failure; otherwise a `Context` value. -/
theorem context_new_cases (o : NativeOracle) (st : NativeState) (app : Str) :
    (st.initted = true →
      Context.new o st app = (.error .AlreadyExists, st, [.isInitted]))
    ∧ (st.initted = false → app.contains 0 = true →
      Context.new o st app = (.error (.NulError ⟨app⟩), st, [.isInitted]))
    ∧ (st.initted = false → app.contains 0 = false → o.initOk app = false →
      Context.new o st app = (.error .InitError, st, [.isInitted, .init app]))
    ∧ (st.initted = false → app.contains 0 = false → o.initOk app = true →
      Context.new o st app = (.ok ⟨⟩, ⟨true⟩, [.isInitted, .init app])) := by
  refine ⟨fun h => ?_, fun h h0 => ?_, fun h h0 hi => ?_, fun h h0 hi => ?_⟩
  · simp [Context.new, notify_is_initted, TRUE, h]
  · simp at h0
    simp [Context.new, notify_is_initted, CString.new, TRUE, h, h0]
  · simp at h0
    simp [Context.new, notify_is_initted, notify_init, CString.new,
      TRUE, FALSE, h, h0, hi]
  · simp at h0
    simp [Context.new, notify_is_initted, notify_init, CString.new,
      TRUE, FALSE, h, h0, hi]

/-- Witness for C2: one concrete input per outcome of `Context::new`. -/
theorem context_new_cases_witness :
    (Context.new mockOracle ⟨true⟩ [109] = (.error .AlreadyExists, ⟨true⟩, [.isInitted]))
    ∧ (Context.new mockOracle ⟨false⟩ [0, 109]
        = (.error (.NulError ⟨[0, 109]⟩), ⟨false⟩, [.isInitted]))
    ∧ (Context.new failOracle ⟨false⟩ [109]
        = (.error .InitError, ⟨false⟩, [.isInitted, .init [109]]))
    ∧ (Context.new mockOracle ⟨false⟩ [109]
        = (.ok ⟨⟩, ⟨true⟩, [.isInitted, .init [109]])) :=
  ⟨(context_new_cases mockOracle ⟨true⟩ [109]).1 rfl,
   (context_new_cases mockOracle ⟨false⟩ [0, 109]).2.1 rfl (by decide),
   (context_new_cases failOracle ⟨false⟩ [109]).2.2.1 rfl (by decide) rfl,
   (context_new_cases mockOracle ⟨false⟩ [109]).2.2.2 rfl (by decide) rfl⟩

/-- Claim C3: in both `Context::new_notification` and
`Notification::update`, the string arguments are checked for embedded null
bytes per field in the order summary, body, icon, short-circuiting on the
first failure with a `NulError` carrying that field's bytes; on any such
failure the trace is empty, i.e. no native call is made. -/
theorem nul_byte_check_order (o : NativeOracle) (nt : Notification)
    (s : Str) (b i : Option Str) :
    (s.contains 0 = true →
      Context.new_notification o s b i = (.error (.NulError ⟨s⟩), [])
      ∧ Notification.update o nt s b i = (.error (.NulError ⟨s⟩), []))
    ∧ (∀ bs, s.contains 0 = false → b = some bs → bs.contains 0 = true →
      Context.new_notification o s b i = (.error (.NulError ⟨bs⟩), [])
      ∧ Notification.update o nt s b i = (.error (.NulError ⟨bs⟩), []))
    ∧ (∀ ic, s.contains 0 = false →
        b.all (fun x => !x.contains 0) = true →
        i = some ic → ic.contains 0 = true →
      Context.new_notification o s b i = (.error (.NulError ⟨ic⟩), [])
      ∧ Notification.update o nt s b i = (.error (.NulError ⟨ic⟩), [])) := by
  refine ⟨fun hs => ?_, fun bs hs hb hbs => ?_, fun ic hs hb hi hic => ?_⟩
  · simp at hs
    simp [Context.new_notification, Notification.update, CString.new, hs]
  · subst hb
    simp at hs hbs
    simp [Context.new_notification, Notification.update, cstringOpt,
      CString.new, hs, hbs]
  · subst hi
    simp at hs hic
    have hbs := cstringOpt_ok b hb
    have hics : cstringOpt (some ic) = .error ⟨ic⟩ := by
      simp [cstringOpt, CString.new, hic]
    simp [Context.new_notification, Notification.update, hbs, hics,
      CString.new, hs]

/-- Witness for C3: a null byte in the summary, in the body (with a clean
summary), and in the icon (with clean summary and body) each yield the
`NulError` of that field with an empty native-call trace, for both
construction and update. -/
theorem nul_byte_check_order_witness :
    (Context.new_notification mockOracle [0] (some [0, 2]) none
      = (.error (.NulError ⟨[0]⟩), []))
    ∧ (Notification.update mockOracle ⟨1⟩ [0] (some [0, 2]) none
      = (.error (.NulError ⟨[0]⟩), []))
    ∧ (Context.new_notification mockOracle [1] (some [0, 2]) (some [0, 3])
      = (.error (.NulError ⟨[0, 2]⟩), []))
    ∧ (Notification.update mockOracle ⟨1⟩ [1] (some [0, 2]) (some [0, 3])
      = (.error (.NulError ⟨[0, 2]⟩), []))
    ∧ (Context.new_notification mockOracle [1] (some [2]) (some [0, 3])
      = (.error (.NulError ⟨[0, 3]⟩), []))
    ∧ (Notification.update mockOracle ⟨1⟩ [1] (some [2]) (some [0, 3])
      = (.error (.NulError ⟨[0, 3]⟩), [])) := by
  have h1 := (nul_byte_check_order mockOracle ⟨1⟩ [0] (some [0, 2]) none).1
    (by decide)
  have h2 := (nul_byte_check_order mockOracle ⟨1⟩ [1] (some [0, 2])
    (some [0, 3])).2.1 [0, 2] (by decide) rfl (by decide)
  have h3 := (nul_byte_check_order mockOracle ⟨1⟩ [1] (some [2])
    (some [0, 3])).2.2 [0, 3] (by decide) (by decide) rfl (by decide)
  exact ⟨h1.1, h1.2, h2.1, h2.2, h3.1, h3.2⟩

/-- Claim C4: `Notification::show` fails with a `NotificationShowError`
carrying the native error object's message — after which that object is
freed (`errorFree` in the trace) — exactly when the native display call
populates the error out-parameter; when the out-parameter stays null it
succeeds with no further native call. -/
theorem notification_show_error_iff (o : NativeOracle) (n : Notification) :
    (∀ msg, (o.showResult n.handle).2 = some msg →
      Notification.show o n
        = (.error ⟨msg⟩, [.notificationShow n.handle, .errorFree]))
    ∧ ((o.showResult n.handle).2 = none →
      Notification.show o n = (.ok (), [.notificationShow n.handle])) := by
  refine ⟨fun msg hmsg => ?_, fun hnone => ?_⟩ <;>
    simp [Notification.show, *]

/-- Witness for C4: the failing mock layer populates the error with message
"boom", so `show` fails with that message and frees the error object; the
cooperative mock layer leaves it null, so `show` succeeds. -/
theorem notification_show_error_iff_witness :
    (Notification.show failOracle ⟨1⟩
      = (.error ⟨"boom"⟩, [.notificationShow 1, .errorFree]))
    ∧ (Notification.show mockOracle ⟨1⟩ = (.ok (), [.notificationShow 1])) :=
  ⟨(notification_show_error_iff failOracle ⟨1⟩).1 "boom" rfl,
   (notification_show_error_iff mockOracle ⟨1⟩).2 rfl⟩

/-- Claim C5: `Notification::update` never invokes the native display call:
for every notification, every argument and every native layer, each native
call in its trace is the in-memory `notify_notification_update` call, and
the rendering state (number of display calls) contributed by `update` is
zero — a subsequent `show` is what makes changes visible. -/
theorem update_never_displays (o : NativeOracle) (n : Notification)
    (s : Str) (b i : Option Str) :
    ((Notification.update o n s b i).2.all isUpdateCall) = true
    ∧ renderCount (Notification.update o n s b i).2 = 0 := by
  unfold Notification.update
  rcases hs : CString.new s with e | sc
  · simp [renderCount]
  · rcases hb : cstringOpt b with e | bp
    · simp [renderCount]
    · rcases hic : cstringOpt i with e | ip
      · simp [renderCount]
      · by_cases hu : o.updateOk n.handle sc bp ip = FALSE <;>
          simp [hu, renderCount, isUpdateCall, isShowCall, List.filter]

/-- Claim C6 (code bug): the source defines no `Drop` implementation for
`Notification` and never calls `g_object_unref`, so when a `Notification`
created by the wrapper (here the handle returned by the cooperative mock
layer) goes out of scope, no native call at all is made: in particular the
native handle is *not* released, contradicting the claimed
guaranteed-release semantics. -/
theorem notification_drop_no_release :
    Notification.drop ⟨1⟩ = []
    ∧ ((Notification.drop ⟨1⟩).contains (NativeCall.objectUnref 1) = false) :=
  ⟨rfl, rfl⟩

/-- Claim C7: `Context::show` is exactly the composition of
`new_notification` followed by the created notification's `show`: same
result (success iff both steps succeed, otherwise the first failing step's
error) and same native-call trace. -/
theorem context_show_is_composition (o : NativeOracle) (s : Str)
    (b i : Option Str) :
    Context.show o s b i = Context.showSpec o s b i := by
  unfold Context.show Context.showSpec
  rcases h1 : Context.new_notification o s b i with ⟨r1, t1⟩
  cases r1 with
  | error e => simp [Except.mapError, Except.bind]
  | ok n =>
    rcases h2 : Notification.show o n with ⟨r2, t2⟩
    cases r2 <;>
      simp [h2, Except.mapError, Except.bind, Except.map]

/-- Claim C8: under clean strings, `Context::new_notification` performs
exactly one native constructor call receiving the converted summary and the
optional body and icon as given — `none` standing for the null pointer
passed for an absent field; it fails with `Unknown` exactly when the native
constructor returns null, and on a non-null return it wraps that handle. -/
theorem new_notification_native_cases (o : NativeOracle) (s : Str)
    (b i : Option Str) (hs : s.contains 0 = false)
    (hb : b.all (fun x => !x.contains 0) = true)
    (hi : i.all (fun x => !x.contains 0) = true) :
    (Context.new_notification o s b i).2 = [.notificationNew s b i]
    ∧ ((Context.new_notification o s b i).1 = .error .Unknown ↔
        o.newHandle s b i = none)
    ∧ (∀ h, o.newHandle s b i = some h →
        (Context.new_notification o s b i).1 = .ok ⟨h⟩) := by
  simp at hs
  have hbs := cstringOpt_ok b hb
  have his := cstringOpt_ok i hi
  rcases hh : o.newHandle s b i with _ | h <;>
    simp [Context.new_notification, CString.new, hs, hbs, his, hh]

/-- Witness for C8: with both optional fields absent the native constructor
receives two nulls (`none`); the cooperative layer returns handle 1, which
is wrapped; the failing layer returns null, giving `Unknown`. -/
theorem new_notification_native_cases_witness :
    (Context.new_notification mockOracle [1] none none).2
      = [.notificationNew [1] none none]
    ∧ (Context.new_notification mockOracle [1] none none).1 = .ok ⟨1⟩
    ∧ (Context.new_notification failOracle [1] (some [2]) none).1
      = .error .Unknown := by
  have h1 := new_notification_native_cases mockOracle [1] none none
    (by decide) (by decide) (by decide)
  have h2 := new_notification_native_cases failOracle [1] (some [2]) none
    (by decide) (by decide) (by decide)
  exact ⟨h1.1, h1.2.2 1 rfl, h2.2.1.mpr rfl⟩

/-- Claim C9: given all string arguments pass the null-byte checks,
`Notification::update` fails with `InvalidParameter` exactly when the
native update call returns `FALSE`; on a `TRUE` return it succeeds with no
return value, having made exactly the one native update call. -/
theorem update_native_result (o : NativeOracle) (n : Notification) (s : Str)
    (b i : Option Str) (hs : s.contains 0 = false)
    (hb : b.all (fun x => !x.contains 0) = true)
    (hi : i.all (fun x => !x.contains 0) = true) :
    ((Notification.update o n s b i).1 = .error .InvalidParameter ↔
      o.updateOk n.handle s b i = false)
    ∧ (o.updateOk n.handle s b i = true →
      Notification.update o n s b i
        = (.ok (), [.notificationUpdate n.handle s b i])) := by
  simp at hs
  have hbs := cstringOpt_ok b hb
  have his := cstringOpt_ok i hi
  rcases hu : o.updateOk n.handle s b i with _ | _ <;>
    simp [Notification.update, CString.new, FALSE, hs, hbs, his, hu]

/-- Witness for C9: the failing mock layer's update returns `FALSE`, giving
`InvalidParameter`; the cooperative layer's returns `TRUE`, and the update
succeeds with exactly one native update call. -/
theorem update_native_result_witness :
    (Notification.update failOracle ⟨1⟩ [1] none (some [2])).1
      = .error .InvalidParameter
    ∧ Notification.update mockOracle ⟨1⟩ [1] none (some [2])
      = (.ok (), [.notificationUpdate 1 [1] none (some [2])]) := by
  have h1 := update_native_result failOracle ⟨1⟩ [1] none (some [2])
    (by decide) (by decide) (by decide)
  have h2 := update_native_result mockOracle ⟨1⟩ [1] none (some [2])
    (by decide) (by decide) (by decide)
  exact ⟨h1.1.mpr rfl, h2.2 rfl⟩

/-- Claim C10 (implicit): `Notification::show` discards the native display
call's gboolean return value and decides success solely from the error
out-parameter: when the native call reports failure through its return flag
but leaves the out-parameter null, `show` still returns `Ok(())`. -/
theorem show_ignores_success_flag (o : NativeOracle) (n : Notification)
    (hflag : (o.showResult n.handle).1 = false)
    (herr : (o.showResult n.handle).2 = none) :
    (Notification.show o n).1 = .ok () := by
  simp [Notification.show, herr]

/-- Witness for C10: a mock layer whose display call returns the failure
flag with a null error out-parameter; `show` nevertheless succeeds. -/
theorem show_ignores_success_flag_witness :
    (Notification.show flagOnlyFailOracle ⟨1⟩).1 = .ok () :=
  show_ignores_success_flag flagOnlyFailOracle ⟨1⟩ rfl rfl
